import Mathlib

/-!
Verification development for the telegive-channel service.

The Python sources are shallowly embedded as executable Lean definitions:

* `src/utils/permissions.py` — the pure permission policy
  (`check_required_permissions`, `compare_permissions`,
  `validate_permission_update`);
* `src/utils/validation.py` — the validator
  (`validate_channel_permissions`, `setup_channel_configuration`,
  `revalidate_channel`);
* `src/utils/telegram_api.py` — the gateway's response normalisation
  (`get_bot_member_info` success branch, `validate_channel_setup`);
* `src/services/channel_validator.py` — the multi-channel sweep
  (`validate_multiple_channels`);
* `src/models/*.py` — the `ChannelConfig` and `ChannelValidationHistory`
  entities.

Python `Dict[str, bool]` permission records are embedded as association
lists with first-binding lookup; `d.get(k, False)` becomes `dget d k`.
Network calls and the database commit are effects of the environment, so
they enter the embedding as explicit parameters: the gateway outcome is an
argument of the validator, and a commit either succeeds (persisting every
staged change) or raises (argument `persist = some msg`), in which case
the storage layer rolls the transaction back and the session is left
invalidated, so the exception handler's secondary commit attempt in
`validate_channel_permissions` cannot write either — the database keeps
its pre-attempt state.
-/

/-- A Python `Dict[str, bool]` permission record: association list with
first-binding lookup. Real Python dicts have unique keys; theorems below
are stated for arbitrary association lists, which is only stronger. -/
abbrev PermDict := List (String × Bool)

/-- Python `permissions.get(perm, False)`: absent key defaults to `False`. -/
def dget (d : PermDict) (k : String) : Bool := (d.lookup k).getD false

/-- Python `", ".join(xs)`. -/
def joinComma : List String → String
  | [] => ""
  | [x] => x
  | x :: y :: xs => x ++ ", " ++ joinComma (y :: xs)

/-- `Config.REQUIRED_PERMISSIONS` from `src/config/settings.py` (the literal
configured value). The policy functions below take the required set as an
explicit parameter standing for this configured global, and the concrete
instantiations use this list. -/
def REQUIRED_PERMISSIONS : List String := ["can_post_messages", "can_edit_messages"]

/-- The five fixed permission keys of the channel permission record. -/
def PERMISSION_KEYS : List String :=
  ["can_post_messages", "can_edit_messages", "can_send_media_messages",
   "can_delete_messages", "can_pin_messages"]

/-- Result of `check_required_permissions` (`src/utils/permissions.py`). -/
structure CheckResult where
  has_required_permissions : Bool
  missing_permissions : List String
  all_permissions : PermDict
  deriving Repr, DecidableEq

/-- `check_required_permissions(permissions)` from `src/utils/permissions.py`:
walks `Config.REQUIRED_PERMISSIONS` (the parameter `req`) in order,
collecting every required permission not `True` in `permissions`
(`permissions.get(required_perm, False)`); compliant iff none are missing. -/
def check_required_permissions (req : List String) (permissions : PermDict) : CheckResult :=
  let missing_permissions := req.filter (fun p => !(dget permissions p))
  { has_required_permissions := missing_permissions.length == 0
    missing_permissions := missing_permissions
    all_permissions := permissions }

/-- One entry of the `changes` dict built by `compare_permissions`:
permission name, old value, new value. -/
structure PermChange where
  perm : String
  old : Bool
  new : Bool
  deriving Repr, DecidableEq

/-- Result of `compare_permissions` (`src/utils/permissions.py`). -/
structure CompareResult where
  has_changes : Bool
  changes : List PermChange
  gained_permissions : List String
  lost_permissions : List String
  lost_required_permissions : List String
  critical_loss : Bool
  deriving Repr, DecidableEq

/-- The key set `set(old.keys()) | set(new.keys())` iterated by
`compare_permissions`. Python's set iteration order is unspecified; we fix
first-occurrence order, and no theorem below depends on the order. -/
def allKeys (old_permissions new_permissions : PermDict) : List String :=
  (old_permissions.map Prod.fst ++ new_permissions.map Prod.fst).dedup

/-- `compare_permissions(old_permissions, new_permissions)` from
`src/utils/permissions.py`: for each key of either record (absent key read
as `False` via `.get(perm, False)`) record a change when the values differ,
classifying it as gained (`new and not old`) or lost (`old and not new`);
`lost_required` is the sublist of `lost` lying in `Config.REQUIRED_PERMISSIONS`
(parameter `req`); `has_changes` is `len(changes) > 0` and `critical_loss`
is `len(lost_required) > 0`. -/
def compare_permissions (req : List String) (old_permissions new_permissions : PermDict) :
    CompareResult :=
  let changedKeys := (allKeys old_permissions new_permissions).filter
    (fun p => dget old_permissions p != dget new_permissions p)
  let changes := changedKeys.map
    (fun p => PermChange.mk p (dget old_permissions p) (dget new_permissions p))
  let gained := changedKeys.filter
    (fun p => dget new_permissions p && !(dget old_permissions p))
  let lost := changedKeys.filter
    (fun p => dget old_permissions p && !(dget new_permissions p))
  let lost_required := lost.filter (fun p => req.contains p)
  { has_changes := !changes.isEmpty
    changes := changes
    gained_permissions := gained
    lost_permissions := lost
    lost_required_permissions := lost_required
    critical_loss := !lost_required.isEmpty }

/-- The claim-relevant slice of the `ChannelConfig` entity
(`src/models/channel_config.py`). Timestamps are abstract instants (`Nat`);
the purely descriptive columns `channel_type`, `channel_member_count`,
`created_at`, `updated_at` play no role in any verified claim and are
omitted. -/
structure ChannelConfig where
  id : Nat
  account_id : Nat
  channel_id : Int
  channel_username : String
  channel_title : String
  can_post_messages : Bool
  can_edit_messages : Bool
  can_send_media_messages : Bool
  can_delete_messages : Bool
  can_pin_messages : Bool
  is_validated : Bool
  last_validation_at : Option Nat
  validation_error : Option String
  deriving Repr, DecidableEq

/-- `ChannelConfig.get_permissions_dict` (`src/models/channel_config.py`). -/
def ChannelConfig.get_permissions_dict (c : ChannelConfig) : PermDict :=
  [("can_post_messages", c.can_post_messages),
   ("can_edit_messages", c.can_edit_messages),
   ("can_send_media_messages", c.can_send_media_messages),
   ("can_delete_messages", c.can_delete_messages),
   ("can_pin_messages", c.can_pin_messages)]

/-- `ChannelConfig.update_permissions` (`src/models/channel_config.py`):
`setattr(self, perm, value)` for every key present in the dict that is an
attribute; a key absent from the dict leaves the field unchanged. The
`updated_at` bump is on an omitted bookkeeping column. -/
def ChannelConfig.update_permissions (c : ChannelConfig) (d : PermDict) : ChannelConfig :=
  { c with
    can_post_messages := (d.lookup "can_post_messages").getD c.can_post_messages
    can_edit_messages := (d.lookup "can_edit_messages").getD c.can_edit_messages
    can_send_media_messages := (d.lookup "can_send_media_messages").getD c.can_send_media_messages
    can_delete_messages := (d.lookup "can_delete_messages").getD c.can_delete_messages
    can_pin_messages := (d.lookup "can_pin_messages").getD c.can_pin_messages }

/-- Result of `validate_permission_update` (`src/utils/permissions.py`);
`error` / `warning` are `none` when the corresponding key is not put into
the result dict. -/
structure UpdateResult where
  valid : Bool
  comparison : CompareResult
  requirement_check : CheckResult
  error : Option String
  warning : Option String
  deriving Repr, DecidableEq

/-- `validate_permission_update(channel_config, new_permissions)` from
`src/utils/permissions.py`: compares the stored permissions with the
proposal, checks the proposal against the required set, mirrors the
compliance into `valid`, and attaches `error` on missing required
permissions and `warning` on a critical loss. (The `except` branch guards
attribute access that is total in this embedding.) -/
def validate_permission_update (req : List String) (channel_config : ChannelConfig)
    (new_permissions : PermDict) : UpdateResult :=
  let current_permissions := channel_config.get_permissions_dict
  let comparison := compare_permissions req current_permissions new_permissions
  let requirement_check := check_required_permissions req new_permissions
  let is_valid := requirement_check.has_required_permissions
  { valid := is_valid
    comparison := comparison
    requirement_check := requirement_check
    error :=
      if is_valid then none
      else some ("Missing required permissions: " ++
        joinComma requirement_check.missing_permissions)
    warning :=
      if comparison.critical_loss then
        some ("Critical permissions lost: " ++
          joinComma comparison.lost_required_permissions)
      else none }

/-- The normalized `member_info` dict built by the success branch of
`get_bot_member_info` (`src/utils/telegram_api.py`) and consumed by the
validator: a `status` entry (`raw.get('status')`, `none` when the external
response lacked it) alongside the boolean permission entries. `perms` is
the permission part of the dict, read with `.get(key, False)` semantics. -/
structure MemberInfo where
  status : Option String
  perms : PermDict
  deriving Repr, DecidableEq

/-- The raw `result` object of the external `getChatMember` call, before
normalisation: possibly missing `status`, possibly missing permission
flags. -/
structure RawChatMember where
  status : Option String
  perms : PermDict
  deriving Repr, DecidableEq

/-- Success branch of `get_bot_member_info` (`src/utils/telegram_api.py`):
builds the `member_info` dict, defaulting every absent permission flag to
`False` via `member_info.get(key, False)`. -/
def get_bot_member_info_normalize (raw : RawChatMember) : MemberInfo :=
  { status := raw.status
    perms :=
      [("can_post_messages", dget raw.perms "can_post_messages"),
       ("can_edit_messages", dget raw.perms "can_edit_messages"),
       ("can_send_media_messages", dget raw.perms "can_send_media_messages"),
       ("can_delete_messages", dget raw.perms "can_delete_messages"),
       ("can_pin_messages", dget raw.perms "can_pin_messages")] }

/-- Outcome of the gateway call `get_bot_member_info`: the Python
`{'success': False, 'error': e}` / `{'success': True, 'member_info': mi}`
shape. All failure modes (timeout, network error, HTTP error, API-level
rejection) are already normalised into the single error string. -/
inductive GatewayResult where
  | failure (error : String)
  | success (member_info : MemberInfo)
  deriving Repr, DecidableEq

/-- Content of the `permissions_snapshot` JSON column: the
`"no longer administrator"` branch of `validate_channel_permissions`
stores the whole `member_info` dict, the other branches store a plain
permission dict. -/
inductive PermissionsSnapshot where
  | ofMemberInfo (mi : MemberInfo)
  | ofPerms (d : PermDict)
  deriving Repr, DecidableEq

/-- The `ChannelValidationHistory` entity (`src/models/validation_history.py`),
restricted to the columns the claims are about (`id` and `validated_at`
are storage bookkeeping). -/
structure ValidationRecord where
  channel_config_id : Nat
  validation_type : String
  validation_result : Bool
  error_message : Option String
  permissions_snapshot : Option PermissionsSnapshot
  deriving Repr, DecidableEq

/-- `ChannelValidationHistory.create_validation_record`
(`src/models/validation_history.py`). -/
def create_validation_record (channel_config_id : Nat) (validation_type : String)
    (result : Bool) (error_message : Option String)
    (permissions : Option PermissionsSnapshot) : ValidationRecord :=
  { channel_config_id := channel_config_id
    validation_type := validation_type
    validation_result := result
    error_message := error_message
    permissions_snapshot := permissions }

/-- The dict returned by `validate_channel_permissions`; `none` fields are
keys the corresponding Python branch does not put into the dict. -/
structure VCPResult where
  valid : Bool
  error : Option String
  permissions_changed : Bool
  current_permissions : Option PermDict
  missing_permissions : Option (List String)
  deriving Repr, DecidableEq

/-- Result dict of the `except`-branch of `validate_channel_permissions`
when `db.session.commit()` raises `m`: the storage layer rolls the failed
transaction back and leaves the session invalidated, so the handler's
secondary log-and-commit attempt fails as well and the function returns
`{'valid': False, 'error': 'Validation error: ...', 'permissions_changed': False}`. -/
def persistFailureResult (m : String) : VCPResult :=
  { valid := false
    error := some ("Validation error: " ++ m)
    permissions_changed := false
    current_permissions := none
    missing_permissions := none }

/-- Post-state and return value of one `validate_channel_permissions` call:
the `ChannelConfig` row, the history table restricted to this channel, and
the returned dict. -/
structure VCPOutcome where
  config : ChannelConfig
  history : List ValidationRecord
  result : VCPResult
  deriving Repr, DecidableEq

/-- The `current_permissions` dict computed inside
`validate_channel_permissions` from the gateway's `member_info`, each flag
read with `member_info.get(key, False)`. -/
def current_permissions_from (member_info : MemberInfo) : PermDict :=
  [("can_post_messages", dget member_info.perms "can_post_messages"),
   ("can_edit_messages", dget member_info.perms "can_edit_messages"),
   ("can_send_media_messages", dget member_info.perms "can_send_media_messages"),
   ("can_delete_messages", dget member_info.perms "can_delete_messages"),
   ("can_pin_messages", dget member_info.perms "can_pin_messages")]

/-- `validate_channel_permissions(channel_config, bot_token, bot_id)` from
`src/utils/validation.py`. The gateway call is the `member_result`
parameter; `now` is `datetime.utcnow()`; `persist = none` means the single
`db.session.commit()` of the taken branch succeeds, `persist = some m`
means it raises `m` (see `persistFailureResult`). In every branch all
mutations — history append, permission overwrite, status fields — are
staged on the session and committed by that one commit, so they land
atomically or not at all. `permissions_changed` is Python dict
inequality; both dicts carry exactly the five permission keys in the same
order, for which list equality coincides with dict equality. -/
def validate_channel_permissions (req : List String) (channel_config : ChannelConfig)
    (history : List ValidationRecord) (member_result : GatewayResult)
    (now : Nat) (persist : Option String) : VCPOutcome :=
  match member_result with
  | .failure err =>
      let record := create_validation_record channel_config.id "permission_check"
        false (some err) none
      let cfg := { channel_config with
        is_validated := false
        last_validation_at := some now
        validation_error := some err }
      match persist with
      | none => ⟨cfg, history ++ [record],
          { valid := false, error := some err, permissions_changed := false
            current_permissions := none, missing_permissions := none }⟩
      | some m => ⟨channel_config, history, persistFailureResult m⟩
  | .success member_info =>
      if member_info.status ≠ some "administrator" then
        let error_msg := "Bot is no longer an administrator in the channel"
        let record := create_validation_record channel_config.id "permission_check"
          false (some error_msg) (some (.ofMemberInfo member_info))
        let cfg := { channel_config with
          is_validated := false
          last_validation_at := some now
          validation_error := some error_msg }
        match persist with
        | none => ⟨cfg, history ++ [record],
            { valid := false, error := some error_msg, permissions_changed := false
              current_permissions := none, missing_permissions := none }⟩
        | some m => ⟨channel_config, history, persistFailureResult m⟩
      else
        let current_permissions := current_permissions_from member_info
        let stored_permissions := channel_config.get_permissions_dict
        let permissions_changed := decide (current_permissions ≠ stored_permissions)
        let missing_permissions := req.filter (fun p => !(dget current_permissions p))
        let validation_successful := missing_permissions.length == 0
        let cfg1 :=
          if permissions_changed then channel_config.update_permissions current_permissions
          else channel_config
        let verr :=
          if validation_successful then none
          else some ("Missing required permissions: " ++ joinComma missing_permissions)
        let cfg2 := { cfg1 with
          is_validated := validation_successful
          last_validation_at := some now
          validation_error := verr }
        let record := create_validation_record channel_config.id "permission_check"
          validation_successful verr (some (.ofPerms current_permissions))
        match persist with
        | none => ⟨cfg2, history ++ [record],
            { valid := validation_successful, error := none
              permissions_changed := permissions_changed
              current_permissions := some current_permissions
              missing_permissions :=
                some (if validation_successful then [] else missing_permissions) }⟩
        | some m => ⟨channel_config, history, persistFailureResult m⟩

/-- Normalized channel metadata built by the success branch of
`get_channel_info` (`src/utils/telegram_api.py`); the descriptive `type`
and `members_count` entries play no role in any claim and are omitted. -/
structure ChannelInfo where
  id : Int
  title : String
  username : Option String
  deriving Repr, DecidableEq

/-- Python `s.lstrip('@')`: drop every leading `@`. -/
def lstripAt (s : String) : String := String.mk (s.toList.dropWhile (fun c => c = '@'))

/-- `validate_channel_setup(bot_token, bot_id, channel_username)` from
`src/utils/telegram_api.py`. The two gateway calls are the `chan_result`
and `member_result` parameters; the Python
`{'success': bool, 'error' | 'channel_info' + 'permissions'}` dict shape
is embedded as `Except` (on success the dict always carries both
`channel_info` and the five-key permission dict). The required-permission
walk reads `permissions.get(required_perm, False)` off the member dict. -/
def validate_channel_setup (req : List String) (chan_result : Except String ChannelInfo)
    (member_result : GatewayResult) : Except String (ChannelInfo × PermDict) :=
  match chan_result with
  | .error e => .error e
  | .ok channel_info =>
    match member_result with
    | .failure e => .error e
    | .success member_info =>
      if member_info.status ≠ some "administrator" then
        .error "Bot is not an administrator in the channel"
      else
        let missing_permissions := req.filter (fun p => !(dget member_info.perms p))
        if missing_permissions.isEmpty then
          .ok (channel_info,
            [("can_post_messages", dget member_info.perms "can_post_messages"),
             ("can_edit_messages", dget member_info.perms "can_edit_messages"),
             ("can_send_media_messages", dget member_info.perms "can_send_media_messages"),
             ("can_delete_messages", dget member_info.perms "can_delete_messages"),
             ("can_pin_messages", dget member_info.perms "can_pin_messages")])
        else
          .error ("Bot lacks required permissions: " ++ joinComma missing_permissions)

/-- Outcome of `setup_channel_configuration`: the created row (if any),
the appended history records, and the returned success/error. -/
structure SetupOutcome where
  config : Option ChannelConfig
  records : List ValidationRecord
  success : Bool
  error : Option String
  deriving Repr, DecidableEq

/-- `setup_channel_configuration(account_id, channel_username, bot_token, bot_id)`
from `src/utils/validation.py`. `existing_config` models the
`ChannelConfig.query.filter_by(account_id=...).first()` probe, `new_id`
the id assigned by `db.session.flush()`, `now` is `datetime.utcnow()`.
The created row passes `is_validated=True` and leaves `validation_error`
to its column default `None`. `persist = some m` means the single
`db.session.commit()` raises `m`: the `except` branch calls
`db.session.rollback()`, so neither the row nor the history record is
stored and `{'success': False, 'error': 'Setup error: ...'}` is returned. -/
def setup_channel_configuration (req : List String) (account_id : Nat)
    (channel_username : String) (existing_config : Bool)
    (chan_result : Except String ChannelInfo) (member_result : GatewayResult)
    (new_id : Nat) (now : Nat) (persist : Option String) : SetupOutcome :=
  if existing_config then
    ⟨none, [], false, some "Account already has a channel configured"⟩
  else
    match validate_channel_setup req chan_result member_result with
    | .error e => ⟨none, [], false, some e⟩
    | .ok (channel_info, permissions) =>
      let channel_config : ChannelConfig :=
        { id := new_id
          account_id := account_id
          channel_id := channel_info.id
          channel_username := channel_info.username.getD (lstripAt channel_username)
          channel_title := channel_info.title
          can_post_messages := dget permissions "can_post_messages"
          can_edit_messages := dget permissions "can_edit_messages"
          can_send_media_messages := dget permissions "can_send_media_messages"
          can_delete_messages := dget permissions "can_delete_messages"
          can_pin_messages := dget permissions "can_pin_messages"
          is_validated := true
          last_validation_at := some now
          validation_error := none }
      let record := create_validation_record new_id "setup" true none
        (some (.ofPerms permissions))
      match persist with
      | none => ⟨some channel_config, [record], true, none⟩
      | some m => ⟨none, [], false, some ("Setup error: " ++ m)⟩

/-- Outcome of `revalidate_channel`: post-state plus the returned dict
(`validation_result` is absent from the dict on the error path). -/
structure RevalOutcome where
  config : ChannelConfig
  history : List ValidationRecord
  success : Bool
  validation_result : Option VCPResult
  channel_info_updated : Bool
  deriving Repr, DecidableEq

/-- `revalidate_channel(channel_config, bot_token, bot_id)` from
`src/utils/validation.py`: run `validate_channel_permissions` (its
commit behaviour governed by `persist1`), then best-effort refresh of the
descriptive fields via `get_channel_info` (`chan_result`); that refresh
commits separately (`persist2`), and if its commit raises the staged
title change is rolled back and the outer `except` returns
`{'success': False, ...}` — the already committed validation outcome is
untouched. The refreshed `member_count` lives on an omitted descriptive
column. -/
def revalidate_channel (req : List String) (channel_config : ChannelConfig)
    (history : List ValidationRecord) (member_result : GatewayResult) (now : Nat)
    (persist1 : Option String) (chan_result : Except String ChannelInfo)
    (persist2 : Option String) : RevalOutcome :=
  let o := validate_channel_permissions req channel_config history member_result now persist1
  match chan_result with
  | .error _ => ⟨o.config, o.history, true, some o.result, false⟩
  | .ok channel_info =>
    match persist2 with
    | none => ⟨{ o.config with channel_title := channel_info.title },
        o.history, true, some o.result, true⟩
    | some _ => ⟨o.config, o.history, false, none, false⟩

/-- Bot credentials returned by the injected `get_credentials_func`. -/
structure Credentials where
  bot_token : String
  bot_id : Int
  deriving Repr, DecidableEq

/-- Per-channel input of a sweep: the channel's stored state, the outcome
of the credential lookup for its account (`.error` models the lookup
raising), the gateway outcome its validation would see, and the commit
behaviour of its transaction. -/
structure SweepChannelInput where
  cfg : ChannelConfig
  history : List ValidationRecord
  credentials : Except String Credentials
  member_result : GatewayResult
  persist : Option String
  deriving Repr

/-- One entry of the sweep's `validation_results` list: the Python
`{'account_id', 'channel_username', 'validation_result': {...}}` entry
with the nested dict flattened to its `valid` / `error` keys. -/
structure ResultEntry where
  account_id : Nat
  channel_username : String
  valid : Bool
  error : Option String
  deriving Repr, DecidableEq

/-- `ChannelValidatorService.validate_single_channel`
(`src/services/channel_validator.py`): logs and delegates to
`validate_channel_permissions`; its `except` branch guards exceptions
that cannot arise in this embedding. -/
def validate_single_channel (req : List String) (channel_config : ChannelConfig)
    (history : List ValidationRecord) (member_result : GatewayResult)
    (now : Nat) (persist : Option String) : VCPOutcome :=
  validate_channel_permissions req channel_config history member_result now persist

/-- One iteration of the `for channel_config in channel_configs` loop of
`validate_multiple_channels`: on a credential-lookup exception the
`except` branch leaves the channel's stored state untouched and records a
`Service error` entry; otherwise the channel is validated. -/
def sweepChannelStep (req : List String) (now : Nat) (i : SweepChannelInput) :
    (ChannelConfig × List ValidationRecord) × ResultEntry :=
  match i.credentials with
  | .error e =>
      ((i.cfg, i.history),
       ⟨i.cfg.account_id, i.cfg.channel_username, false, some ("Service error: " ++ e)⟩)
  | .ok _ =>
      let o := validate_single_channel req i.cfg i.history i.member_result now i.persist
      ((o.config, o.history),
       ⟨i.cfg.account_id, i.cfg.channel_username, o.result.valid, o.result.error⟩)

/-- The aggregate dict built by `validate_multiple_channels`. -/
structure SweepResults where
  total_channels : Nat
  successful_validations : Nat
  failed_validations : Nat
  validation_results : List ResultEntry
  deriving Repr, DecidableEq

/-- Post-state of every swept channel plus the aggregate results. -/
structure SweepOutcome where
  channels : List (ChannelConfig × List ValidationRecord)
  results : SweepResults
  deriving Repr, DecidableEq

/-- `ChannelValidatorService.validate_multiple_channels`
(`src/services/channel_validator.py`): iterates the channels
independently; the incremental `successful_validations` /
`failed_validations` counters equal the number of entries with
`valid` respectively not `valid` (a credential failure lands in the
`except` branch, which appends an invalid entry and bumps the failed
counter). -/
def validate_multiple_channels (req : List String) (inputs : List SweepChannelInput)
    (now : Nat) : SweepOutcome :=
  let steps := inputs.map (sweepChannelStep req now)
  { channels := steps.map Prod.fst
    results :=
      { total_channels := inputs.length
        successful_validations := (steps.filter (fun s => s.2.valid)).length
        failed_validations := (steps.filter (fun s => !s.2.valid)).length
        validation_results := steps.map Prod.snd } }

/-- `PeriodicValidationTask.run_periodic_validation`
(`src/tasks/periodic_validation.py`): the scheduler-driven sweep selects
the stale channels and hands them, with per-account credentials, to
`validate_multiple_channels`; every history record appended by the sweep
is created inside `validate_channel_permissions`. -/
def run_periodic_validation (req : List String) (inputs : List SweepChannelInput)
    (now : Nat) : SweepOutcome :=
  validate_multiple_channels req inputs now

/-- A key that is absent reads as `false`. -/
lemma dget_eq_false_of_lookup_none {d : PermDict} {k : String}
    (h : d.lookup k = none) : dget d k = false := by
  simp [dget, h]

/-- A key that reads `true` is present among the record's keys. -/
lemma mem_keys_of_lookup_some {l : PermDict} {k : String} {v : Bool}
    (h : l.lookup k = some v) : k ∈ l.map Prod.fst := by
  induction l with
  | nil => simp [List.lookup] at h
  | cons hd tl ih =>
    obtain ⟨k', v'⟩ := hd
    by_cases hk : k == k'
    · simp at hk; simp [hk]
    · simp [List.lookup, hk] at h
      simp [ih h]

lemma dget_eq_true_lookup {d : PermDict} {k : String} (h : dget d k = true) :
    d.lookup k = some true := by
  unfold dget at h
  cases hl : d.lookup k with
  | none => rw [hl] at h; simp at h
  | some b => rw [hl] at h; simp at h; rw [h]

/-- Compliance of `check_required_permissions` unfolded to the missing
list being empty. -/
lemma check_required_compliant_iff (req : List String) (P : PermDict) :
    (check_required_permissions req P).has_required_permissions = true ↔
      req.filter (fun p => !(dget P p)) = [] := by
  simp [check_required_permissions, List.length_eq_zero]

/-- CLAIM C4: for every permission record `P` and required set `R`,
`check_required(P, R)` is compliant iff every permission named in `R` is
true in `P`; the missing list consists exactly of the members of `R` not
true in `P`; and permissions outside `R` never affect compliance (two
records agreeing on `R` get the same compliance verdict). -/
theorem claim_C4_check_required (req : List String) (P : PermDict) :
    ((check_required_permissions req P).has_required_permissions = true ↔
      ∀ p ∈ req, dget P p = true)
    ∧ (∀ p, p ∈ (check_required_permissions req P).missing_permissions ↔
        p ∈ req ∧ dget P p = false)
    ∧ (∀ Q : PermDict, (∀ p ∈ req, dget Q p = dget P p) →
        (check_required_permissions req Q).has_required_permissions =
          (check_required_permissions req P).has_required_permissions) := by
  refine ⟨?_, ?_, ?_⟩
  · rw [check_required_compliant_iff, List.filter_eq_nil_iff]
    constructor
    · intro h p hp
      have := h p hp
      simpa using this
    · intro h p hp
      simp [h p hp]
  · intro p
    simp [check_required_permissions, List.mem_filter]
  · intro Q h
    have hfil : req.filter (fun p => !(dget Q p)) = req.filter (fun p => !(dget P p)) :=
      List.filter_congr (fun a ha => by rw [h a ha])
    simp [check_required_permissions, hfil]

/-- Witness for C4: adding a permission outside the required set does not
change the compliance verdict. -/
theorem claim_C4_check_required_witness :
    (check_required_permissions REQUIRED_PERMISSIONS
      [("can_post_messages", true), ("can_edit_messages", true), ("can_pin_messages", true)]
        ).has_required_permissions =
    (check_required_permissions REQUIRED_PERMISSIONS
      [("can_post_messages", true), ("can_edit_messages", true)]).has_required_permissions :=
  (claim_C4_check_required REQUIRED_PERMISSIONS
    [("can_post_messages", true), ("can_edit_messages", true)]).2.2
    [("can_post_messages", true), ("can_edit_messages", true), ("can_pin_messages", true)]
    (by decide)

/-- CLAIM C9: `diff(X, X)` reports no change at all: `changed` is false
and the gained, lost, and lost-required lists are all empty, for any
permission record `X` and any required set. -/
theorem claim_C9_diff_idempotent (req : List String) (X : PermDict) :
    compare_permissions req X X =
      { has_changes := false, changes := [], gained_permissions := []
        lost_permissions := [], lost_required_permissions := []
        critical_loss := false } := by
  have hch : (allKeys X X).filter (fun p => dget X p != dget X p) = [] :=
    List.filter_eq_nil_iff.mpr (fun a _ => by simp)
  simp [compare_permissions, hch]

/-- CLAIM C6: whenever `diff(old, new)` reports a non-empty
`lost_required`, the compliance check on the new record fails. -/
theorem claim_C6_lost_required_noncompliant (req : List String)
    (old_p new_p : PermDict)
    (h : (compare_permissions req old_p new_p).lost_required_permissions ≠ []) :
    (check_required_permissions req new_p).has_required_permissions = false := by
  obtain ⟨p, hp⟩ := List.exists_mem_of_ne_nil _ h
  simp only [compare_permissions, List.mem_filter] at hp
  obtain ⟨⟨_, hval⟩, hcont⟩ := hp
  have hpreq : p ∈ req := by simpa using hcont
  have hnew : dget new_p p = false := by
    have : dget old_p p = true ∧ (!(dget new_p p)) = true := by simpa using hval
    simpa using this.2
  have hmiss : p ∈ req.filter (fun q => !(dget new_p q)) :=
    List.mem_filter.mpr ⟨hpreq, by simp [hnew]⟩
  have hne : req.filter (fun q => !(dget new_p q)) ≠ [] := by
    intro h0
    rw [h0] at hmiss
    exact absurd hmiss (List.not_mem_nil p)
  simp only [check_required_permissions]
  refine beq_eq_false_iff_ne.mpr ?_
  intro hlen
  exact hne (List.length_eq_zero.mp hlen)

/-- Witness for C6: losing `can_edit_messages` yields non-compliance of
the new record. -/
theorem claim_C6_lost_required_noncompliant_witness :
    (check_required_permissions REQUIRED_PERMISSIONS
      [("can_post_messages", true)]).has_required_permissions = false :=
  claim_C6_lost_required_noncompliant REQUIRED_PERMISSIONS
    [("can_post_messages", true), ("can_edit_messages", true)]
    [("can_post_messages", true)] (by decide)

/-- CLAIM C8: `validate_permission_update` mirrors the compliance of the
proposed record into `valid`, and a non-empty `lost_required` always
yields a warning naming exactly the lost required permissions. -/
theorem claim_C8_validate_update (req : List String) (cfg : ChannelConfig)
    (proposed : PermDict) :
    (validate_permission_update req cfg proposed).valid =
      (check_required_permissions req proposed).has_required_permissions
    ∧ ((compare_permissions req cfg.get_permissions_dict proposed).lost_required_permissions
          ≠ [] →
        (validate_permission_update req cfg proposed).warning =
          some ("Critical permissions lost: " ++
            joinComma (compare_permissions req cfg.get_permissions_dict
              proposed).lost_required_permissions)) := by
  constructor
  · rfl
  · intro h
    have hcrit : (compare_permissions req cfg.get_permissions_dict proposed).critical_loss
        = true := by
      simp only [compare_permissions]
      simp only [compare_permissions] at h
      simpa [List.isEmpty_iff] using h
    simp [validate_permission_update, hcrit]

/-- A concrete channel configuration used to instantiate witnesses. -/
def sampleConfig : ChannelConfig :=
  { id := 1
    account_id := 7
    channel_id := -1001234
    channel_username := "mychannel"
    channel_title := "My Channel"
    can_post_messages := true
    can_edit_messages := true
    can_send_media_messages := true
    can_delete_messages := false
    can_pin_messages := false
    is_validated := true
    last_validation_at := some 0
    validation_error := none }

/-- Witness for C8: a proposal that drops `can_edit_messages` produces the
critical-loss warning. -/
theorem claim_C8_validate_update_witness :
    (validate_permission_update REQUIRED_PERMISSIONS sampleConfig
      [("can_post_messages", true)]).warning =
      some ("Critical permissions lost: " ++
        joinComma (compare_permissions REQUIRED_PERMISSIONS
          sampleConfig.get_permissions_dict
          [("can_post_messages", true)]).lost_required_permissions) :=
  (claim_C8_validate_update REQUIRED_PERMISSIONS sampleConfig
    [("can_post_messages", true)]).2 (by decide)

/-- Looking one of the five permission keys up in a five-key record built
from a flag function returns that flag. -/
lemma lookup_five_of_mem (f : String → Bool) (p : String) (hp : p ∈ PERMISSION_KEYS) :
    (([("can_post_messages", f "can_post_messages"),
       ("can_edit_messages", f "can_edit_messages"),
       ("can_send_media_messages", f "can_send_media_messages"),
       ("can_delete_messages", f "can_delete_messages"),
       ("can_pin_messages", f "can_pin_messages")] : PermDict).lookup p) = some (f p) := by
  simp only [PERMISSION_KEYS, List.mem_cons, List.not_mem_nil, or_false] at hp
  rcases hp with rfl | rfl | rfl | rfl | rfl <;> rfl

/-- A record missing a member of the required set is non-compliant, and
that member is reported missing. -/
lemma check_required_not_compliant_of_absent {req : List String} {P : PermDict}
    {p : String} (hpreq : p ∈ req) (hfalse : dget P p = false) :
    (check_required_permissions req P).has_required_permissions = false
    ∧ p ∈ (check_required_permissions req P).missing_permissions := by
  have hmiss : p ∈ req.filter (fun q => !(dget P q)) :=
    List.mem_filter.mpr ⟨hpreq, by simp [hfalse]⟩
  refine ⟨?_, hmiss⟩
  simp only [check_required_permissions]
  refine beq_eq_false_iff_ne.mpr ?_
  intro hlen
  rw [List.length_eq_zero.mp hlen] at hmiss
  exact absurd hmiss (List.not_mem_nil p)

/-- CLAIM C10 (implicit): every permission-consuming operation treats an
absent permission field as `false`: the `.get(key, False)` read itself,
the gateway's member-info normalisation, the validator's computation of
the current permissions, `check_required` (a partial record with a
required permission absent is classified non-compliant by the total
function, not an error), and `diff` (a key absent from the new record
counts as lost when the old record held it). -/
theorem claim_C10_absent_is_denied (d : PermDict) (p : String)
    (h : d.lookup p = none) :
    dget d p = false
    ∧ (∀ rawStatus : Option String, p ∈ PERMISSION_KEYS →
        (get_bot_member_info_normalize ⟨rawStatus, d⟩).perms.lookup p = some false)
    ∧ (∀ st : Option String, p ∈ PERMISSION_KEYS →
        (current_permissions_from ⟨st, d⟩).lookup p = some false)
    ∧ (∀ req, p ∈ req →
        (check_required_permissions req d).has_required_permissions = false
        ∧ p ∈ (check_required_permissions req d).missing_permissions)
    ∧ (∀ req (old_p : PermDict), dget old_p p = true →
        p ∈ (compare_permissions req old_p d).lost_permissions) := by
  have hd : dget d p = false := dget_eq_false_of_lookup_none h
  refine ⟨hd, ?_, ?_, ?_, ?_⟩
  · intro st hp
    have := lookup_five_of_mem (fun k => dget d k) p hp
    simpa [get_bot_member_info_normalize, hd] using this
  · intro st hp
    have := lookup_five_of_mem (fun k => dget d k) p hp
    simpa [current_permissions_from, hd] using this
  · intro req hpreq
    exact check_required_not_compliant_of_absent hpreq hd
  · intro req old_p hp_old
    have hkey : p ∈ old_p.map Prod.fst :=
      mem_keys_of_lookup_some (dget_eq_true_lookup hp_old)
    have hall : p ∈ allKeys old_p d := by
      simp only [allKeys, List.mem_dedup, List.mem_append]
      exact Or.inl hkey
    have hchanged : p ∈ (allKeys old_p d).filter (fun q => dget old_p q != dget d q) :=
      List.mem_filter.mpr ⟨hall, by simp [hp_old, hd]⟩
    simp only [compare_permissions]
    exact List.mem_filter.mpr ⟨hchanged, by simp [hp_old, hd]⟩

/-- Witness for C10: the empty record is non-compliant because
`can_post_messages` is absent. -/
theorem claim_C10_absent_is_denied_witness :
    (check_required_permissions REQUIRED_PERMISSIONS
      ([] : PermDict)).has_required_permissions = false :=
  ((claim_C10_absent_is_denied [] "can_post_messages" (by decide)).2.2.2.1
    REQUIRED_PERMISSIONS (by decide)).1

/-- CLAIM C1: each `validate_channel_permissions` attempt stages the
permission-snapshot overwrite, the `is_validated` / `last_validation_at` /
`validation_error` update and the appended history record on one session
and commits them with a single `db.session.commit()`. When that commit
fails (`persist = some m`) the transaction rolls back: the
`ChannelConfig` and the history are exactly as before the attempt, and
the caller receives an invalid result carrying a retryable
`Validation error` — when it succeeds (`persist = none`) the whole unit
lands: exactly one record is appended and the attempt time is stored. -/
theorem claim_C1_atomic_persistence (req : List String) (cfg : ChannelConfig)
    (history : List ValidationRecord) (mr : GatewayResult) (now : Nat) (m : String) :
    ((validate_channel_permissions req cfg history mr now (some m)).config = cfg
      ∧ (validate_channel_permissions req cfg history mr now (some m)).history = history
      ∧ (validate_channel_permissions req cfg history mr now (some m)).result.valid = false
      ∧ (validate_channel_permissions req cfg history mr now (some m)).result.error =
          some ("Validation error: " ++ m))
    ∧ ((validate_channel_permissions req cfg history mr now none).history.length =
          history.length + 1
      ∧ (validate_channel_permissions req cfg history mr now none).config.last_validation_at =
          some now) := by
  cases mr with
  | failure err =>
    simp [validate_channel_permissions, persistFailureResult]
  | success mi =>
    by_cases hs : mi.status ≠ some "administrator"
    · simp [validate_channel_permissions, hs, persistFailureResult]
    · simp [validate_channel_permissions, hs, persistFailureResult]

/-- CLAIM C5: a validator run against a gateway failure (e.g. a timeout
of `get_bot_member_info`) leaves the stored permission snapshot — indeed
every field other than the validation status — untouched, appends exactly
one history record for the attempt, sets `last_validation_at` to the
attempt time, `is_validated` to false and `validation_error` to the
gateway error. (`persist = none`: the claim describes the committed
attempt; a commit failure is claim C1's territory.) -/
theorem claim_C5_gateway_failure_frame (req : List String) (cfg : ChannelConfig)
    (history : List ValidationRecord) (err : String) (now : Nat) :
    (validate_channel_permissions req cfg history (.failure err) now none).config =
      { cfg with is_validated := false, last_validation_at := some now,
                 validation_error := some err }
    ∧ (validate_channel_permissions req cfg history (.failure err) now none).history =
        history ++
          [create_validation_record cfg.id "permission_check" false (some err) none]
    ∧ (validate_channel_permissions req cfg history
          (.failure err) now none).config.get_permissions_dict =
        cfg.get_permissions_dict := by
  refine ⟨rfl, rfl, ?_⟩
  simp [validate_channel_permissions, ChannelConfig.get_permissions_dict]

/-- The data-model invariant of §3 of the spec: a validated configuration
carries no validation error. -/
def validated_implies_no_error (c : ChannelConfig) : Prop :=
  c.is_validated = true → c.validation_error = none

/-- CLAIM C7: the invariant `is_validated == true → validation_error == null`
holds after every operation that mutates a `ChannelConfig`: single-channel
validation (success or failure, any gateway outcome, any commit outcome),
first-time setup, and forced revalidation. Each operation sets
`validation_error` to `None` exactly when it sets `is_validated` to
`True`, and records every failure with `is_validated = False`. -/
theorem claim_C7_invariant (req : List String) :
    (∀ (cfg : ChannelConfig) (history : List ValidationRecord) (mr : GatewayResult)
        (now : Nat) (persist : Option String), validated_implies_no_error cfg →
        validated_implies_no_error
          (validate_channel_permissions req cfg history mr now persist).config)
    ∧ (∀ (account_id : Nat) (channel_username : String) (existing_config : Bool)
        (chan_result : Except String ChannelInfo) (member_result : GatewayResult)
        (new_id now : Nat) (persist : Option String) (c' : ChannelConfig),
        (setup_channel_configuration req account_id channel_username existing_config
          chan_result member_result new_id now persist).config = some c' →
        validated_implies_no_error c')
    ∧ (∀ (cfg : ChannelConfig) (history : List ValidationRecord) (mr : GatewayResult)
        (now : Nat) (persist1 : Option String) (chan_result : Except String ChannelInfo)
        (persist2 : Option String), validated_implies_no_error cfg →
        validated_implies_no_error
          (revalidate_channel req cfg history mr now persist1 chan_result
            persist2).config) := by
  have hval : ∀ (cfg : ChannelConfig) (history : List ValidationRecord)
      (mr : GatewayResult) (now : Nat) (persist : Option String),
      validated_implies_no_error cfg →
      validated_implies_no_error
        (validate_channel_permissions req cfg history mr now persist).config := by
    intro cfg history mr now persist hinv
    cases mr with
    | failure err =>
      cases persist with
      | none => intro h; simp [validate_channel_permissions] at h
      | some m => simpa [validate_channel_permissions] using hinv
    | success mi =>
      by_cases hs : mi.status ≠ some "administrator"
      · cases persist with
        | none => intro h; simp [validate_channel_permissions, hs] at h
        | some m => simpa [validate_channel_permissions, hs] using hinv
      · cases persist with
        | none =>
          by_cases hv :
              ((req.filter (fun p =>
                !(dget (current_permissions_from mi) p))).length == 0) = true
          · intro _
            simp [validate_channel_permissions, hs, hv]
          · intro h
            simp [validate_channel_permissions, hs, hv] at h
        | some m => simpa [validate_channel_permissions, hs] using hinv
  refine ⟨hval, ?_, ?_⟩
  · intro account_id channel_username existing_config chan_result member_result
      new_id now persist c' hc
    by_cases hex : existing_config
    · simp [setup_channel_configuration, hex] at hc
    · cases hres : validate_channel_setup req chan_result member_result with
      | error e => simp [setup_channel_configuration, hex, hres] at hc
      | ok pair =>
        obtain ⟨channel_info, permissions⟩ := pair
        cases persist with
        | none =>
          simp [setup_channel_configuration, hex, hres] at hc
          intro _
          rw [← hc]
        | some m => simp [setup_channel_configuration, hex, hres] at hc
  · intro cfg history mr now persist1 chan_result persist2 hinv
    have h1 := hval cfg history mr now persist1 hinv
    cases chan_result with
    | error e => simpa [revalidate_channel] using h1
    | ok channel_info =>
      cases persist2 with
      | none =>
        intro h
        simp only [revalidate_channel] at h ⊢
        exact h1 h
      | some m => simpa [revalidate_channel] using h1

/-- Witness for C7: a timed-out validation of the sample configuration
keeps the invariant. -/
theorem claim_C7_invariant_witness :
    validated_implies_no_error
      (validate_channel_permissions REQUIRED_PERMISSIONS sampleConfig []
        (.failure "Telegram API request timeout") 5 none).config :=
  (claim_C7_invariant REQUIRED_PERMISSIONS).1 sampleConfig []
    (.failure "Telegram API request timeout") 5 none (fun _ => rfl)

/-- A sweep input whose credential lookup succeeds and whose gateway call
finds the bot an administrator with posting and editing rights. -/
def sweepInputOk : SweepChannelInput :=
  { cfg := sampleConfig
    history := []
    credentials := .ok ⟨"123:token", 42⟩
    member_result := .success
      ⟨some "administrator",
       [("can_post_messages", true), ("can_edit_messages", true),
        ("can_send_media_messages", true)]⟩
    persist := none }

/-- A sweep input whose credential lookup raises. -/
def sweepInputCredFail : SweepChannelInput :=
  { cfg := { sampleConfig with id := 2, account_id := 8, channel_username := "otherchannel" }
    history := []
    credentials := .error "Account not found"
    member_result := .failure "never reached"
    persist := none }

/-- Every `validate_channel_permissions` call either leaves the history
unchanged (failed commit) or appends exactly one record, which it tags
`permission_check`. -/
lemma vcp_history_cases (req : List String) (cfg : ChannelConfig)
    (history : List ValidationRecord) (mr : GatewayResult) (now : Nat)
    (persist : Option String) :
    (validate_channel_permissions req cfg history mr now persist).history = history
    ∨ ∃ (b : Bool) (e : Option String) (s : Option PermissionsSnapshot),
        (validate_channel_permissions req cfg history mr now persist).history =
          history ++ [create_validation_record cfg.id "permission_check" b e s] := by
  cases mr with
  | failure err =>
    cases persist with
    | none => exact Or.inr ⟨false, some err, none, rfl⟩
    | some m => exact Or.inl rfl
  | success mi =>
    by_cases hs : mi.status ≠ some "administrator"
    · cases persist with
      | none =>
        refine Or.inr ⟨false, some "Bot is no longer an administrator in the channel",
          some (.ofMemberInfo mi), ?_⟩
        simp only [validate_channel_permissions]
        rw [if_pos hs]
      | some m =>
        refine Or.inl ?_
        simp only [validate_channel_permissions]
        rw [if_pos hs]
    · cases persist with
      | none =>
        refine Or.inr
          ⟨(req.filter (fun p => !(dget (current_permissions_from mi) p))).length == 0,
           (if ((req.filter (fun p =>
                !(dget (current_permissions_from mi) p))).length == 0) = true then none
            else some ("Missing required permissions: " ++
              joinComma (req.filter (fun p => !(dget (current_permissions_from mi) p))))),
           some (.ofPerms (current_permissions_from mi)), ?_⟩
        simp only [validate_channel_permissions]
        rw [if_neg hs]
      | some m =>
        refine Or.inl ?_
        simp only [validate_channel_permissions]
        rw [if_neg hs]

/-- CLAIM C2, counterexample: the claim says every history record created
during the Scheduler's periodic sweep carries `validation_type`
`'periodic'`; but the sweep delegates to `validate_channel_permissions`,
which hardcodes `'permission_check'`, so the single record created by
this one-channel periodic sweep is tagged `'permission_check'`, not
`'periodic'`. -/
theorem claim_C2_counterexample :
    ((run_periodic_validation REQUIRED_PERMISSIONS [sweepInputOk] 5).channels.map
        (fun c => c.2.map (fun r => r.validation_type))) = [["permission_check"]]
    ∧ "permission_check" ≠ "periodic" := by
  constructor
  · rfl
  · decide

/-- CLAIM C2 as amended: the `'setup'` tag is recorded by first-time
configuration, but every record created by `validate_channel_permissions`
— and therefore every record appended during a periodic sweep — carries
`validation_type` `'permission_check'`; no code path records
`'periodic'`. -/
theorem claim_C2_amended_validation_type (req : List String) :
    (∀ (cfg : ChannelConfig) (history : List ValidationRecord) (mr : GatewayResult)
        (now : Nat) (persist : Option String),
        ∀ r ∈ (validate_channel_permissions req cfg history mr now persist).history,
        r ∈ history ∨ r.validation_type = "permission_check")
    ∧ (∀ (inputs : List SweepChannelInput) (now : Nat),
        ∀ co ∈ (run_periodic_validation req inputs now).channels, ∀ r ∈ co.2,
        (∃ i ∈ inputs, r ∈ i.history) ∨ r.validation_type = "permission_check")
    ∧ (∀ (account_id : Nat) (channel_username : String) (existing_config : Bool)
        (chan_result : Except String ChannelInfo) (member_result : GatewayResult)
        (new_id now : Nat) (persist : Option String),
        ∀ r ∈ (setup_channel_configuration req account_id channel_username
          existing_config chan_result member_result new_id now persist).records,
        r.validation_type = "setup") := by
  have hvcp : ∀ (cfg : ChannelConfig) (history : List ValidationRecord)
      (mr : GatewayResult) (now : Nat) (persist : Option String),
      ∀ r ∈ (validate_channel_permissions req cfg history mr now persist).history,
      r ∈ history ∨ r.validation_type = "permission_check" := by
    intro cfg history mr now persist r hr
    rcases vcp_history_cases req cfg history mr now persist with h | ⟨b, e, s, h⟩
    · rw [h] at hr
      exact Or.inl hr
    · rw [h] at hr
      rcases List.mem_append.mp hr with h1 | h1
      · exact Or.inl h1
      · right
        rw [List.mem_singleton.mp h1]
        rfl
  refine ⟨hvcp, ?_, ?_⟩
  · intro inputs now co hco r hr
    simp only [run_periodic_validation, validate_multiple_channels,
      List.map_map, List.mem_map] at hco
    obtain ⟨i, hi, hstep⟩ := hco
    cases hcred : i.credentials with
    | error e =>
      rw [← hstep] at hr
      simp only [Function.comp, sweepChannelStep, hcred] at hr
      exact Or.inl ⟨i, hi, hr⟩
    | ok creds =>
      rw [← hstep] at hr
      simp only [Function.comp, sweepChannelStep, hcred] at hr
      rcases hvcp i.cfg i.history i.member_result now i.persist r hr with h | h
      · exact Or.inl ⟨i, hi, h⟩
      · exact Or.inr h
  · intro account_id channel_username existing_config chan_result member_result
      new_id now persist r hr
    by_cases hex : existing_config
    · simp [setup_channel_configuration, hex] at hr
    · cases hres : validate_channel_setup req chan_result member_result with
      | error e => simp [setup_channel_configuration, hex, hres] at hr
      | ok pair =>
        obtain ⟨channel_info, permissions⟩ := pair
        cases persist with
        | none =>
          have hr' : r = create_validation_record new_id "setup" true none
              (some (.ofPerms permissions)) := by
            simpa [setup_channel_configuration, hex, hres] using hr
          rw [hr']
          rfl
        | some m => simp [setup_channel_configuration, hex, hres] at hr

/-- Witness for the amended C2: the record created by a committed
gateway-failure validation is tagged `permission_check`. -/
theorem claim_C2_amended_validation_type_witness :
    create_validation_record sampleConfig.id "permission_check" false (some "boom") none
        ∈ ([] : List ValidationRecord)
    ∨ (create_validation_record sampleConfig.id "permission_check" false
        (some "boom") none).validation_type = "permission_check" :=
  (claim_C2_amended_validation_type REQUIRED_PERMISSIONS).1 sampleConfig []
    (.failure "boom") 5 none _ (by decide)

/-- A channel whose credential lookup raises is left untouched and gets a
`Service error` entry. -/
lemma sweepChannelStep_credError {req : List String} {now : Nat}
    {i : SweepChannelInput} {e : String} (he : i.credentials = .error e) :
    sweepChannelStep req now i =
      ((i.cfg, i.history),
       { account_id := i.cfg.account_id
         channel_username := i.cfg.channel_username
         valid := false
         error := some ("Service error: " ++ e) }) := by
  unfold sweepChannelStep
  rw [he]

/-- CLAIM C3: when the credential lookup for the `k`-th channel of a
sweep fails, that channel's `validation_result` entry in the sweep
results records a FAILED attempt (`valid = False` with the
`Service error` reason), it is counted among `failed_validations`, the
channel's stored state is left untouched, and the sweep does not abort:
every channel — before and after the failing one — still gets its entry
and its own outcome, each channel being processed independently. -/
theorem claim_C3_credential_failure_isolated (req : List String)
    (inputs : List SweepChannelInput) (now : Nat) (k : Nat) (hk : k < inputs.length)
    (e : String) (he : (inputs.get ⟨k, hk⟩).credentials = .error e) :
    (validate_multiple_channels req inputs now).results.validation_results[k]? =
      some { account_id := (inputs.get ⟨k, hk⟩).cfg.account_id
             channel_username := (inputs.get ⟨k, hk⟩).cfg.channel_username
             valid := false
             error := some ("Service error: " ++ e) }
    ∧ (validate_multiple_channels req inputs now).channels[k]? =
        some ((inputs.get ⟨k, hk⟩).cfg, (inputs.get ⟨k, hk⟩).history)
    ∧ 0 < (validate_multiple_channels req inputs now).results.failed_validations
    ∧ (validate_multiple_channels req inputs now).results.validation_results.length =
        inputs.length
    ∧ (∀ j : Nat, (validate_multiple_channels req inputs now).channels[j]? =
        (inputs[j]?).map (fun i => (sweepChannelStep req now i).1)) := by
  have hstep := @sweepChannelStep_credError req now (inputs.get ⟨k, hk⟩) e he
  have hidx : inputs[k]? = some (inputs.get ⟨k, hk⟩) := by
    rw [List.getElem?_eq_getElem hk]
    rfl
  refine ⟨?_, ?_, ?_, ?_, ?_⟩
  · show ((inputs.map (sweepChannelStep req now)).map Prod.snd)[k]? = _
    rw [List.map_map, List.getElem?_map, hidx, Option.map_some', Function.comp_apply,
      hstep]
  · show ((inputs.map (sweepChannelStep req now)).map Prod.fst)[k]? = _
    rw [List.map_map, List.getElem?_map, hidx, Option.map_some', Function.comp_apply,
      hstep]
  · have hmem : sweepChannelStep req now (inputs.get ⟨k, hk⟩) ∈
        inputs.map (sweepChannelStep req now) :=
      List.mem_map_of_mem _ (inputs.get_mem k hk)
    have hfil : sweepChannelStep req now (inputs.get ⟨k, hk⟩) ∈
        (inputs.map (sweepChannelStep req now)).filter (fun s => !s.2.valid) :=
      List.mem_filter.mpr ⟨hmem, by rw [hstep]; rfl⟩
    exact List.length_pos.mpr (List.ne_nil_of_mem hfil)
  · simp [validate_multiple_channels]
  · intro j
    show ((inputs.map (sweepChannelStep req now)).map Prod.fst)[j]? = _
    rw [List.map_map, List.getElem?_map]
    rfl

/-- Witness for C3: in a two-channel sweep whose first channel's
credential lookup raises, the failed count is positive. -/
theorem claim_C3_credential_failure_isolated_witness :
    0 < (validate_multiple_channels REQUIRED_PERMISSIONS
      [sweepInputCredFail, sweepInputOk] 5).results.failed_validations :=
  (claim_C3_credential_failure_isolated REQUIRED_PERMISSIONS
    [sweepInputCredFail, sweepInputOk] 5 0 (by decide) "Account not found"
    (by rfl)).2.2.1
